import Mathlib

/-!
Verification of the CuteLy URL-shortener core against its specification.

The development shallowly embeds the repository's TypeScript sources:

* `src/src/utils/base62.util.ts` — the base62 codec (`toBase62`, `toBase10`).
  JavaScript numbers are embedded as `Nat` (encoder input) and `Int`
  (decoder accumulator, since `String.prototype.indexOf` yields `-1` for a
  character missing from the alphabet).
* `src/src/repositories/url.repository.ts` (and its variant
  `src/unnamed/part_003`) — the durable store, embedded as a list of rows
  plus the auto-increment counter, with explicit state passing.
* `src/unnamed/part_002` — the id-derived `UrlService` (cache-consulting
  shorten, decode-then-id-lookup resolve, delete); namespace `P2`.
* `src/src/services/url.service.ts` (first class in the file) — the
  random-slug `UrlService` with click tracking; namespace `V1`.  Its
  random slug draws are embedded as an explicit oracle `Nat → String`,
  and each Redis call that can fail takes an explicit failure parameter.

Repository reads are instrumented with a `dbReads` counter so that
frame properties ("the store is not consulted") are provable.
-/

/-! ## Base62 codec (src/src/utils/base62.util.ts) -/

/-- The 62-character alphabet, fixed order digits, lower case, upper case. -/
def base62Chars : List Char :=
  "0123456789abcdefghijklmnopqrstuvwxyzABCDEFGHIJKLMNOPQRSTUVWXYZ".data

/-- Scan for a character, carrying the index reached so far; `-1` when the
character is absent, as JavaScript's `String.prototype.indexOf` behaves. -/
def indexOfFrom (s : List Char) (c : Char) (i : Nat) : Int :=
  match s with
  | [] => -1
  | d :: rest => if d = c then (i : Int) else indexOfFrom rest c (i + 1)

/-- JavaScript `base62Chars.indexOf(c)`: the first index of `c`, `-1` if absent. -/
def jsIndexOf (s : List Char) (c : Char) : Int :=
  indexOfFrom s c 0

/-- The digit loop of `toBase62`: produces the base-62 digits of `n`, most
significant first, empty for `n = 0`.  Structural recursion on a fuel
argument (the loop runs at most `n` times since `n` shrinks every step). -/
def digitsAux : Nat → Nat → List Char
  | 0, _ => []
  | fuel + 1, n =>
    if n = 0 then []
    else digitsAux fuel (n / 62) ++ [base62Chars.getD (n % 62) '0']

/-- The minimal base-62 digit string of `n` (empty for 0), as built by the
`while (n > 0)` loop of `toBase62`. -/
def toBase62Digits (n : Nat) : List Char :=
  digitsAux n n

/-- `toBase62` from base62.util.ts: minimal base-62 digits of `n`, left-padded
with the zero character to width 6. -/
def toBase62 (n : Nat) : String :=
  let code := toBase62Digits n
  ⟨List.replicate (6 - code.length) '0' ++ code⟩

/-- One step of the decoder loop: `id = id * 62 + base62Chars.indexOf(c)`. -/
def toBase10Step (id : Int) (c : Char) : Int :=
  id * 62 + jsIndexOf base62Chars c

/-- `toBase10` from base62.util.ts.  Note that it never fails: an
out-of-alphabet character contributes the index `-1` arithmetically. -/
def toBase10 (code : String) : Int :=
  code.data.foldl toBase10Step 0

/-- JavaScript `Number.isSafeInteger` on an (exact) integer value. -/
def isSafeInteger (i : Int) : Bool :=
  i.natAbs ≤ 2 ^ 53 - 1

/-! ## Data model and durable store (url.repository.ts / part_003) -/

/-- A row of the `Url` table, with the fields the core reads and writes.
`createUrl` writes the empty string into `slug` (the create-then-attach
window); `userId` is `none` for the database `NULL` of an anonymous row. -/
structure UrlRecord where
  id : Nat
  slug : String
  originalUrl : String
  userId : Option Nat
  hitCount : Nat
  deriving DecidableEq, Repr

/-- The durable store: the rows in insertion order plus the auto-increment
counter that assigns `id` on creation. -/
structure Db where
  rows : List UrlRecord
  nextId : Nat
  deriving DecidableEq, Repr

/-- `createUrl`: inserts a row with the next id, empty slug and hit count 0,
returning the created row (as Prisma `create` does). -/
def createUrl (db : Db) (originalUrl : String) (userId : Option Nat) : UrlRecord × Db :=
  let r : UrlRecord := ⟨db.nextId, "", originalUrl, userId, 0⟩
  (r, ⟨db.rows ++ [r], db.nextId + 1⟩)

/-- `updateSlug`: attaches `slug` to the row with this `id`.  (Prisma throws
when no row matches; the services only call it with an id they just
created, so the embedding updates in place.) -/
def updateSlug (db : Db) (id : Nat) (slug : String) : Db :=
  ⟨db.rows.map (fun r => if r.id == id then { r with slug := slug } else r), db.nextId⟩

/-- `findById`: `findUnique({ where: { id } })`.  The id comes from the
decoder, hence an `Int`; rows are compared by value. -/
def findById (db : Db) (id : Int) : Option UrlRecord :=
  db.rows.find? (fun r => (r.id : Int) == id)

/-- `findBySlug`: `findUnique({ where: { slug } })`. -/
def findBySlug (db : Db) (slug : String) : Option UrlRecord :=
  db.rows.find? (fun r => r.slug == slug)

/-- `findByOriginalUrl`: `findFirst({ where: { originalUrl } })` — the first
matching row regardless of owner. -/
def findByOriginalUrl (db : Db) (originalUrl : String) : Option UrlRecord :=
  db.rows.find? (fun r => r.originalUrl == originalUrl)

/-- `incrementHitCount`: `update({ where: { slug } })` adding one hit. -/
def incrementHitCount (db : Db) (slug : String) : Db :=
  ⟨db.rows.map (fun r => if r.slug == slug then { r with hitCount := r.hitCount + 1 } else r),
   db.nextId⟩

/-- `deleteUrl` of the repository: removes the row with this id. -/
def deleteRow (db : Db) (id : Nat) : Db :=
  ⟨db.rows.filter (fun r => r.id != id), db.nextId⟩

/-! ## Cache layer (Redis key-value front end) -/

/-- The Redis keyspace: an association list, most recent write first. -/
abbrev Cache := List (String × String)

/-- Redis `GET`: the value at the key, `none` on a miss. -/
def cacheGet (c : Cache) (k : String) : Option String :=
  (c.find? (fun p => p.1 == k)).map (fun p => p.2)

/-- Redis `SET`/`SETEX`: overwrites the key.  (The TTL argument expires keys
in real time, outside this state model.) -/
def cacheSet (c : Cache) (k v : String) : Cache :=
  (k, v) :: c.filter (fun p => p.1 != k)

/-- Redis `DEL`: drops the key; deleting an absent key changes nothing. -/
def cacheDel (c : Cache) (k : String) : Cache :=
  c.filter (fun p => p.1 != k)

/-! ## JavaScript-value helpers -/

/-- Errors a service call can end in: `error` is a thrown
`new Error(msg)`; `cacheErr` is an exception escaping a Redis call that no
`try`/`catch` absorbed. -/
inductive JsErr where
  | error (msg : String)
  | cacheErr (msg : String)
  deriving DecidableEq, Repr

/-- JavaScript truthiness of the optional numeric `userId` parameter as the
services test it with `if (!userId)`: `undefined` and `0` are falsy. -/
def falsyUserId : Option Nat → Bool
  | none => true
  | some n => n == 0

/-- JavaScript strict equality `dbValue === param` between a nullable
database number and an optional parameter: `null === undefined` is false,
so the comparison holds only when both sides are the same number. -/
def jsStrictEqNum : Option Nat → Option Nat → Bool
  | some a, some b => a == b
  | _, _ => false

/-- JavaScript `x || null` on an optional number: `0` collapses to `null`. -/
def jsNumOrNull : Option Nat → Option Nat
  | some 0 => none
  | x => x

deriving instance DecidableEq for Except

/-! ## The id-derived service of src/unnamed/part_002 (namespace P2) -/

namespace P2

/-- Service state: the durable store and the Redis keyspace. -/
structure St where
  db : Db
  cache : Cache
  deriving DecidableEq, Repr

/-- Steps 3–6 of part_002 `shortenUrl`: create the row, derive the slug from
the assigned id with `toBase62`, attach it, and cache the `long:` mapping
only when `userId` is falsy. -/
def shortenCreate (s : St) (originalUrl : String) (userId : Option Nat) : String × St :=
  let created := createUrl s.db originalUrl userId
  let url := created.1
  let db2 := updateSlug created.2 url.id (toBase62 url.id)
  let cache2 :=
    if falsyUserId userId then cacheSet s.cache ("long:" ++ originalUrl) (toBase62 url.id)
    else s.cache
  (toBase62 url.id, ⟨db2, cache2⟩)

/-- Step 2 of part_002 `shortenUrl`: the store reuse check.  A found row
whose `slug` is truthy (non-empty) short-circuits, caching the mapping only
when `userId` is falsy; otherwise the create path runs. -/
def shortenDbPhase (s : St) (originalUrl : String) (userId : Option Nat) : String × St :=
  match findByOriginalUrl s.db originalUrl with
  | some existing =>
    if existing.slug = "" then shortenCreate s originalUrl userId
    else
      (existing.slug,
       ⟨s.db,
        if falsyUserId userId then cacheSet s.cache ("long:" ++ originalUrl) existing.slug
        else s.cache⟩)
  | none => shortenCreate s originalUrl userId

/-- `UrlService.shortenUrl` of part_002.  Step 1 consults the `long:` cache
only when `userId` is falsy; a truthy cached slug returns immediately. -/
def shortenUrl (s : St) (originalUrl : String) (userId : Option Nat) : String × St :=
  match (if falsyUserId userId then cacheGet s.cache ("long:" ++ originalUrl) else none) with
  | some v => if v = "" then shortenDbPhase s originalUrl userId else (v, s)
  | none => shortenDbPhase s originalUrl userId

/-- What a resolve call leaves behind: the value returned or error thrown,
the store and cache, and how many repository reads were issued. -/
structure ResolveOut where
  result : Except JsErr String
  db : Db
  cache : Cache
  dbReads : Nat
  deriving DecidableEq, Repr

/-- The store fallback of part_002 `getOriginalUrl`: decode the slug with
`toBase10` (which never throws, so the surrounding `catch` is dead code),
reject a non-representable or non-positive id before any store query, then
look the id up.  The trailing `redis.set` sits inside the `try` whose
`catch` throws the not-found error, so `setFails` turns a successful lookup
into that error — after the hit count was already incremented. -/
def resolveDbPhase (s : St) (slug : String) (setFails : Option String) : ResolveOut :=
  let id := toBase10 slug
  if isSafeInteger id ∧ 1 ≤ id then
    match findById s.db id with
    | none => ⟨.error (.error "URL not found"), s.db, s.cache, 1⟩
    | some url =>
      let db1 := incrementHitCount s.db url.slug
      match setFails with
      | some _ => ⟨.error (.error "URL not found"), db1, s.cache, 1⟩
      | none => ⟨.ok url.originalUrl, db1, cacheSet s.cache ("slug:" ++ slug) url.originalUrl, 1⟩
  else ⟨.error (.error "URL not found"), s.db, s.cache, 0⟩

/-- `UrlService.getOriginalUrl` of part_002.  The opening
`await redis.get(...)` is guarded by no `try`/`catch`, so a failing get
(`getFails`) escapes to the caller as the raw cache exception; a truthy
cached value returns without touching the store. -/
def getOriginalUrl (s : St) (slug : String) (getFails setFails : Option String) : ResolveOut :=
  match getFails with
  | some e => ⟨.error (.cacheErr e), s.db, s.cache, 0⟩
  | none =>
    match cacheGet s.cache ("slug:" ++ slug) with
    | some v => if v = "" then resolveDbPhase s slug setFails else ⟨.ok v, s.db, s.cache, 0⟩
    | none => resolveDbPhase s slug setFails

/-- `UrlService.deleteUrl` of part_002: ownership check via strict
inequality, then the row is removed.  No cache key is evicted. -/
def deleteUrl (s : St) (slug : String) (userId : Nat) : Except JsErr Unit × St :=
  match findBySlug s.db slug with
  | none => (.error (.error "URL not found"), s)
  | some url =>
    if jsStrictEqNum url.userId (some userId) then (.ok (), ⟨deleteRow s.db url.id, s.cache⟩)
    else (.error (.error "Access denied"), s)

end P2

/-! ## The random-slug service of src/src/services/url.service.ts (namespace V1) -/

namespace V1

/-- A click event row recorded by the analytics repository. -/
structure ClickRow where
  urlId : Nat
  userId : Option Nat
  ipAddress : Option String
  userAgent : Option String
  referrer : Option String
  deriving DecidableEq, Repr

/-- The optional click metadata a resolve call may carry. -/
structure ClickInfo where
  ipAddress : Option String
  userAgent : Option String
  referrer : Option String
  userId : Option Nat
  deriving DecidableEq, Repr

/-- Service state: store, Redis keyspace, and the recorded click events. -/
structure St where
  db : Db
  cache : Cache
  clicks : List ClickRow
  deriving DecidableEq, Repr

/-- `getCachedUrl`: the `try`/`catch` absorbs a failing `redis.get`
(`getFails`) into `null`, i.e. a cache miss. -/
def getCachedUrl (s : St) (slug : String) (getFails : Option String) : Option String :=
  match getFails with
  | some _ => none
  | none => cacheGet s.cache ("short:" ++ slug)

/-- `cacheUrlMapping`: `redis.setex("short:" + slug, 3600, originalUrl)`;
its `try`/`catch` absorbs a failure (`setFails`), leaving the cache as is. -/
def cacheUrlMapping (c : Cache) (slug originalUrl : String) (setFails : Option String) : Cache :=
  match setFails with
  | some _ => c
  | none => cacheSet c ("short:" ++ slug) originalUrl

/-- `removeFromCache`: `redis.del("short:" + slug)`; its `try`/`catch`
absorbs a failure (`delFails`). -/
def removeFromCache (c : Cache) (slug : String) (delFails : Option String) : Cache :=
  match delFails with
  | some _ => c
  | none => cacheDel c ("short:" ++ slug)

/-- `trackClick`: looks the slug up in the repository (one store read,
returned as the second component) and, when the row exists, records a click
event; its `try`/`catch` swallows analytics failures. -/
def trackClick (s : St) (slug : String) (clickData : Option ClickInfo) : St × Nat :=
  match findBySlug s.db slug with
  | none => (s, 1)
  | some url =>
    ({ s with
        clicks := s.clicks ++
          [⟨url.id, jsNumOrNull (clickData.bind ClickInfo.userId),
            clickData.bind ClickInfo.ipAddress, clickData.bind ClickInfo.userAgent,
            clickData.bind ClickInfo.referrer⟩] },
     1)

/-- What a V1 resolve call leaves behind. -/
structure ResolveOut where
  result : Except JsErr String
  db : Db
  cache : Cache
  clicks : List ClickRow
  dbReads : Nat
  deriving DecidableEq, Repr

/-- The store path of V1 `getOriginalUrl`: look up by slug, increment the
hit count of the requested slug, track the click, populate the `short:`
cache (failure absorbed), return the original URL. -/
def resolveDbPhase (s : St) (slug : String) (clickData : Option ClickInfo)
    (setFails : Option String) : ResolveOut :=
  match findBySlug s.db slug with
  | none => ⟨.error (.error "URL not found"), s.db, s.cache, s.clicks, 1⟩
  | some urlRecord =>
    let tracked := trackClick ⟨incrementHitCount s.db slug, s.cache, s.clicks⟩ slug clickData
    ⟨.ok urlRecord.originalUrl, tracked.1.db,
     cacheUrlMapping tracked.1.cache slug urlRecord.originalUrl setFails,
     tracked.1.clicks, 1 + tracked.2⟩

/-- `UrlService.getOriginalUrl` of url.service.ts: on a truthy cached value
the click is still tracked (`trackClick` issues a store read) and the
cached URL is returned; otherwise the store path runs. -/
def getOriginalUrl (s : St) (slug : String) (clickData : Option ClickInfo)
    (getFails setFails : Option String) : ResolveOut :=
  match getCachedUrl s slug getFails with
  | some v =>
    if v = "" then resolveDbPhase s slug clickData setFails
    else
      let tracked := trackClick s slug clickData
      ⟨.ok v, tracked.1.db, tracked.1.cache, tracked.1.clicks, tracked.2⟩
  | none => resolveDbPhase s slug clickData setFails

/-- The `while (attempts < maxAttempts)` loop of `generateUniqueSlug`:
`slugs` is the stream of random draws `generateSlug` would produce, `i` the
index of the next draw, and the second argument the attempts left (10). -/
def genSlugLoop (db : Db) (slugs : Nat → String) : Nat → Nat → Except JsErr String
  | _, 0 => .error (.error "Failed to generate unique slug after maximum attempts")
  | i, remaining + 1 =>
    match findBySlug db (slugs i) with
    | none => .ok (slugs i)
    | some _ => genSlugLoop db slugs (i + 1) remaining

/-- `generateUniqueSlug`: up to 10 random draws, each checked against the
store; exhaustion throws. -/
def generateUniqueSlug (db : Db) (slugs : Nat → String) : Except JsErr String :=
  genSlugLoop db slugs 0 10

/-- The creation path of V1 `shortenUrl`: draw a unique random slug, create
the row, attach the slug (the repository returns the updated row), and
cache the `short:` mapping only for a falsy `userId`. -/
def shortenCreate (s : St) (originalUrl : String) (userId : Option Nat)
    (slugs : Nat → String) (setFails : Option String) : Except JsErr UrlRecord × St :=
  match generateUniqueSlug s.db slugs with
  | .error e => (.error e, s)
  | .ok slug =>
    let created := createUrl s.db originalUrl userId
    let db2 := updateSlug created.2 created.1.id slug
    let finalRecord := { created.1 with slug := slug }
    let cache2 :=
      if falsyUserId userId then cacheUrlMapping s.cache slug originalUrl setFails
      else s.cache
    (.ok finalRecord, ⟨db2, cache2, s.clicks⟩)

/-- `UrlService.shortenUrl` of url.service.ts: an existing row for the URL
is returned only when `existingUrl.userId === userId` — strict equality, so
a stored `NULL` owner never matches the `undefined` parameter of an
anonymous call; in every other case a new row is created. -/
def shortenUrl (s : St) (originalUrl : String) (userId : Option Nat)
    (slugs : Nat → String) (setFails : Option String) : Except JsErr UrlRecord × St :=
  match findByOriginalUrl s.db originalUrl with
  | some existing =>
    if jsStrictEqNum existing.userId userId then (.ok existing, s)
    else shortenCreate s originalUrl userId slugs setFails
  | none => shortenCreate s originalUrl userId slugs setFails

/-- `UrlService.deleteUrl` of url.service.ts: ownership check, row removal,
then eviction of the `short:<slug>` cache key only. -/
def deleteUrl (s : St) (slug : String) (userId : Nat) (delFails : Option String) :
    Except JsErr Unit × St :=
  match findBySlug s.db slug with
  | none => (.error (.error "URL not found"), s)
  | some urlRecord =>
    if jsStrictEqNum urlRecord.userId (some userId) then
      (.ok (), ⟨deleteRow s.db urlRecord.id, removeFromCache s.cache slug delFails, s.clicks⟩)
    else (.error (.error "Access denied"), s)

end V1

/-! ## Lemmas about the base62 codec -/

theorem digitsAux_zero (fuel : Nat) : digitsAux fuel 0 = [] := by
  cases fuel <;> rfl

theorem digitsAux_eq_toBase62Digits (n : Nat) :
    ∀ fuel, n ≤ fuel → digitsAux fuel n = toBase62Digits n := by
  induction n using Nat.strong_induction_on with
  | _ n ih =>
    intro fuel hfuel
    match n, fuel with
    | 0, fuel => rw [digitsAux_zero]; rfl
    | m + 1, fuel + 1 =>
      show digitsAux (fuel + 1) (m + 1) = digitsAux (m + 1) (m + 1)
      rw [digitsAux, digitsAux]
      simp only [Nat.succ_ne_zero, if_false]
      have hdiv : (m + 1) / 62 < m + 1 := Nat.div_lt_self (Nat.succ_pos m) (by norm_num)
      rw [ih ((m + 1) / 62) hdiv fuel (by omega), ih ((m + 1) / 62) hdiv m (by omega)]

theorem toBase62Digits_succ (n : Nat) (h : n ≠ 0) :
    toBase62Digits n = toBase62Digits (n / 62) ++ [base62Chars.getD (n % 62) '0'] := by
  match n, h with
  | m + 1, _ =>
    show digitsAux (m + 1) (m + 1) = _
    rw [digitsAux]
    simp only [Nat.succ_ne_zero, if_false]
    have hdiv : (m + 1) / 62 < m + 1 := Nat.div_lt_self (Nat.succ_pos m) (by norm_num)
    rw [digitsAux_eq_toBase62Digits ((m + 1) / 62) m (by omega)]

theorem jsIndexOf_getD : ∀ m, m < 62 → jsIndexOf base62Chars (base62Chars.getD m '0') = m := by
  decide

theorem foldl_toBase62Digits (n : Nat) :
    ∀ a : Int,
      (toBase62Digits n).foldl toBase10Step a =
        a * 62 ^ (toBase62Digits n).length + n := by
  induction n using Nat.strong_induction_on with
  | _ n ih =>
    intro a
    by_cases h : n = 0
    · subst h
      simp [toBase62Digits, digitsAux]
    · rw [toBase62Digits_succ n h, List.foldl_append, List.length_append]
      have hdiv : n / 62 < n := Nat.div_lt_self (Nat.pos_of_ne_zero h) (by norm_num)
      rw [ih (n / 62) hdiv a]
      show toBase10Step _ _ = _
      rw [toBase10Step, jsIndexOf_getD (n % 62) (Nat.mod_lt n (by norm_num))]
      have hdm : (62 : Int) * ((n / 62 : Nat) : Int) + ((n % 62 : Nat) : Int) = (n : Int) := by
        exact_mod_cast Nat.div_add_mod n 62
      rw [List.length_singleton, pow_succ]
      ring_nf
      ring_nf at hdm
      omega

theorem foldl_zeros (k : Nat) : (List.replicate k '0').foldl toBase10Step 0 = 0 := by
  induction k with
  | zero => rfl
  | succ k ih =>
    rw [List.replicate_succ, List.foldl_cons]
    have h0 : toBase10Step 0 '0' = 0 := by decide
    rw [h0, ih]

theorem toBase62_toBase10 (n : Nat) : toBase10 (toBase62 n) = n := by
  show (List.replicate (6 - (toBase62Digits n).length) '0' ++ toBase62Digits n).foldl
      toBase10Step 0 = (n : Int)
  rw [List.foldl_append, foldl_zeros, foldl_toBase62Digits n 0]
  simp

theorem toBase62Digits_length_le : ∀ k n, n < 62 ^ k → (toBase62Digits n).length ≤ k := by
  intro k
  induction k with
  | zero =>
    intro n h
    interval_cases n
    simp [toBase62Digits, digitsAux]
  | succ k ih =>
    intro n h
    by_cases h0 : n = 0
    · subst h0; simp [toBase62Digits, digitsAux_zero]
    · rw [toBase62Digits_succ n h0, List.length_append, List.length_singleton]
      have : n / 62 < 62 ^ k := by
        rw [Nat.div_lt_iff_lt_mul (by norm_num)]
        calc n < 62 ^ (k + 1) := h
        _ = 62 ^ k * 62 := by rw [pow_succ]
      have := ih (n / 62) this
      omega

theorem lt_of_toBase62Digits_length_le :
    ∀ k n, (toBase62Digits n).length ≤ k → n < 62 ^ k := by
  intro k
  induction k with
  | zero =>
    intro n h
    by_cases h0 : n = 0
    · subst h0; positivity
    · rw [toBase62Digits_succ n h0] at h
      simp at h
  | succ k ih =>
    intro n h
    by_cases h0 : n = 0
    · subst h0; positivity
    · rw [toBase62Digits_succ n h0, List.length_append, List.length_singleton] at h
      have hdiv := ih (n / 62) (by omega)
      have hmod : n % 62 < 62 := Nat.mod_lt n (by norm_num)
      have hdm : 62 * (n / 62) + n % 62 = n := Nat.div_add_mod n 62
      have : n < 62 * 62 ^ k := by omega
      calc n < 62 * 62 ^ k := this
      _ = 62 ^ (k + 1) := by rw [pow_succ, mul_comm]

theorem toBase62_length_eq (n : Nat) :
    (toBase62 n).length = 6 - (toBase62Digits n).length + (toBase62Digits n).length := by
  show (List.replicate (6 - (toBase62Digits n).length) '0' ++ toBase62Digits n).length = _
  rw [List.length_append, List.length_replicate]

/-! ## Claims about the base62 codec -/

/-- C1: Base62 round-trip — for every non-negative integer `n` whose base-62
representation fits in the 6-character width, decoding the encoding returns
`n`, i.e. `toBase10 (toBase62 n) = n`. -/
theorem c1_base62_roundtrip (n : Nat) (_h : n < 62 ^ 6) : toBase10 (toBase62 n) = n :=
  toBase62_toBase10 n

/-- Witness for C1 at the concrete input 12345. -/
theorem c1_base62_roundtrip_witness :
    12345 < 62 ^ 6 ∧ toBase10 (toBase62 12345) = 12345 :=
  ⟨by norm_num, c1_base62_roundtrip 12345 (by norm_num)⟩

/-- C3 (code evaluated at the failing inputs): `toBase10` does not fail on a
string holding a character outside the alphabet — `String.prototype.indexOf`
yields `-1` for it and the accumulation proceeds arithmetically, so the
decoder returns an ordinary integer: `-1` for `"00000!"`, and the plausible
positive id `62^5 - 1` for `"10000!"`. -/
theorem c3_toBase10_invalid_char_returns_integer :
    toBase10 "00000!" = -1 ∧ toBase10 "10000!" = 916132831 := by
  constructor <;> decide

/-- C9: for every `n` below `62^6` the encoding is exactly 6 characters
long, and `toBase62 0` is the all-zero-character string `"000000"`. -/
theorem c9_fixed_width (n : Nat) (h : n < 62 ^ 6) :
    (toBase62 n).length = 6 ∧ toBase62 0 = "000000" := by
  constructor
  · have hL := toBase62Digits_length_le 6 n h
    rw [toBase62_length_eq]
    omega
  · decide

/-- Witness for C9 at the concrete input `62^6 - 1`, the largest id of the
6-character width. -/
theorem c9_fixed_width_witness :
    62 ^ 6 - 1 < 62 ^ 6 ∧
      ((toBase62 (62 ^ 6 - 1)).length = 6 ∧ toBase62 0 = "000000") :=
  ⟨by norm_num, c9_fixed_width (62 ^ 6 - 1) (by norm_num)⟩

/-- C10: `toBase62` is injective on all non-negative integers, and an id of
`62^6` or greater produces a string strictly longer than 6 characters
(over-wide ids are never truncated). -/
theorem c10_injective_and_overwidth (m n k : Nat)
    (hmn : toBase62 m = toBase62 n) (hk : 62 ^ 6 ≤ k) :
    m = n ∧ 6 < (toBase62 k).length := by
  constructor
  · have h := congrArg toBase10 hmn
    rw [toBase62_toBase10, toBase62_toBase10] at h
    exact_mod_cast h
  · have hL : ¬(toBase62Digits k).length ≤ 6 := by
      intro hle
      exact absurd (lt_of_toBase62Digits_length_le 6 k hle) (not_lt.mpr hk)
    rw [toBase62_length_eq]
    omega

/-- Witness for C10 at the concrete inputs 7 and `62^6`. -/
theorem c10_injective_and_overwidth_witness :
    toBase62 7 = toBase62 7 ∧ 62 ^ 6 ≤ 62 ^ 6 ∧
      (7 = 7 ∧ 6 < (toBase62 (62 ^ 6)).length) :=
  ⟨rfl, by norm_num, c10_injective_and_overwidth 7 7 (62 ^ 6) rfl (by norm_num)⟩

/-! ## Lemmas about the part_002 service -/

theorem falsyUserId_of_ne (uid : Nat) (h : uid ≠ 0) : falsyUserId (some uid) = false := by
  simp [falsyUserId]
  exact h

theorem P2shortenUrl_owned (s : P2.St) (u : String) (uid : Nat) (h : uid ≠ 0) :
    P2.shortenUrl s u (some uid) = P2.shortenDbPhase s u (some uid) := by
  rw [P2.shortenUrl, falsyUserId_of_ne uid h]
  rfl

/-! ## Claims about shortening (C4) -/

/-- C4 (amended): for every shorten call with a nonzero `ownerId`, in both
cited service variants, the anonymous `long:` cache is neither populated
nor consulted — in part_002 the cache is left unchanged and the returned
slug and resulting store do not depend on the cache contents; the
url.service.ts shorten performs no cache read at all and skips its only
cache write for truthy owners, so its cache too is unchanged and its
result cache-independent.  But in neither variant is the reuse check
bypassed: part_002 returns the slug of any row with the same `originalUrl`
and a non-empty slug — whatever its owner — leaving the store unchanged,
and creates a new row only when no row matches; url.service.ts returns the
existing record when its stored owner strictly equals the caller (creating
nothing), and creates one new store row otherwise. -/
theorem c4_owned_shorten_amended (s : P2.St) (u : String) (uid : Nat) (h : uid ≠ 0) :
    (P2.shortenUrl s u (some uid)).2.cache = s.cache ∧
    (∀ c' : Cache,
      (P2.shortenUrl ⟨s.db, c'⟩ u (some uid)).1 = (P2.shortenUrl s u (some uid)).1 ∧
      (P2.shortenUrl ⟨s.db, c'⟩ u (some uid)).2.db = (P2.shortenUrl s u (some uid)).2.db) ∧
    (∀ r : UrlRecord, findByOriginalUrl s.db u = some r → r.slug ≠ "" →
      (P2.shortenUrl s u (some uid)).1 = r.slug ∧
      (P2.shortenUrl s u (some uid)).2.db = s.db) ∧
    (findByOriginalUrl s.db u = none →
      (P2.shortenUrl s u (some uid)).2.db.rows.length = s.db.rows.length + 1) ∧
    (∀ (t : V1.St) (slugs : Nat → String) (sf : Option String),
      (V1.shortenUrl t u (some uid) slugs sf).2.cache = t.cache) ∧
    (∀ (t : V1.St) (c' : Cache) (slugs : Nat → String) (sf : Option String),
      (V1.shortenUrl ⟨t.db, c', t.clicks⟩ u (some uid) slugs sf).1 =
        (V1.shortenUrl t u (some uid) slugs sf).1 ∧
      (V1.shortenUrl ⟨t.db, c', t.clicks⟩ u (some uid) slugs sf).2.db =
        (V1.shortenUrl t u (some uid) slugs sf).2.db) ∧
    (∀ (t : V1.St) (slugs : Nat → String) (sf : Option String) (r : UrlRecord),
      findByOriginalUrl t.db u = some r → jsStrictEqNum r.userId (some uid) = true →
      V1.shortenUrl t u (some uid) slugs sf = (.ok r, t)) ∧
    (∀ (t : V1.St) (slugs : Nat → String) (sf : Option String) (slug : String),
      V1.generateUniqueSlug t.db slugs = .ok slug →
      (findByOriginalUrl t.db u = none ∨
        (∀ r : UrlRecord, findByOriginalUrl t.db u = some r →
          jsStrictEqNum r.userId (some uid) = false)) →
      (V1.shortenUrl t u (some uid) slugs sf).1 = .ok ⟨t.db.nextId, slug, u, some uid, 0⟩ ∧
      (V1.shortenUrl t u (some uid) slugs sf).2.db.rows.length = t.db.rows.length + 1) := by
  have hf := falsyUserId_of_ne uid h
  refine ⟨?_, ?_, ?_, ?_, ?_, ?_, ?_, ?_⟩
  · obtain ⟨db, cache⟩ := s
    rw [P2shortenUrl_owned ⟨db, cache⟩ u uid h]
    rcases hfind : findByOriginalUrl db u with _ | r
    · simp [P2.shortenDbPhase, hfind, P2.shortenCreate, hf]
    · by_cases hs : r.slug = "" <;>
        simp [P2.shortenDbPhase, hfind, P2.shortenCreate, hf, hs]
  · obtain ⟨db, cache⟩ := s
    intro c'
    rw [P2shortenUrl_owned ⟨db, cache⟩ u uid h, P2shortenUrl_owned ⟨db, c'⟩ u uid h]
    rcases hfind : findByOriginalUrl db u with _ | r
    · simp [P2.shortenDbPhase, hfind, P2.shortenCreate, hf]
    · by_cases hs : r.slug = "" <;>
        simp [P2.shortenDbPhase, hfind, P2.shortenCreate, hf, hs]
  · intro r hfind hs
    rw [P2shortenUrl_owned s u uid h]
    simp [P2.shortenDbPhase, hfind, hs]
  · intro hfind
    rw [P2shortenUrl_owned s u uid h]
    simp [P2.shortenDbPhase, hfind, P2.shortenCreate, hf, createUrl, updateSlug]
  · intro t slugs sf
    rcases hfind : findByOriginalUrl t.db u with _ | r
    · rcases hgen : V1.generateUniqueSlug t.db slugs with e | slug <;>
        simp [V1.shortenUrl, hfind, V1.shortenCreate, hgen, hf]
    · by_cases hown : jsStrictEqNum r.userId (some uid) = true
      · simp [V1.shortenUrl, hfind, hown]
      · rcases hgen : V1.generateUniqueSlug t.db slugs with e | slug <;>
          simp [V1.shortenUrl, hfind, hown, V1.shortenCreate, hgen, hf]
  · intro t c' slugs sf
    rcases hfind : findByOriginalUrl t.db u with _ | r
    · rcases hgen : V1.generateUniqueSlug t.db slugs with e | slug <;>
        simp [V1.shortenUrl, hfind, V1.shortenCreate, hgen, hf]
    · by_cases hown : jsStrictEqNum r.userId (some uid) = true
      · simp [V1.shortenUrl, hfind, hown]
      · rcases hgen : V1.generateUniqueSlug t.db slugs with e | slug <;>
          simp [V1.shortenUrl, hfind, hown, V1.shortenCreate, hgen, hf]
  · intro t slugs sf r hfind hown
    simp [V1.shortenUrl, hfind, hown]
  · intro t slugs sf slug hgen hor
    rcases hfind : findByOriginalUrl t.db u with _ | r
    · constructor <;>
        simp [V1.shortenUrl, hfind, V1.shortenCreate, hgen, hf, createUrl, updateSlug]
    · have hown : jsStrictEqNum r.userId (some uid) = false := by
        rcases hor with hnone | hall2
        · rw [hfind] at hnone; simp at hnone
        · exact hall2 r hfind
      constructor <;>
        simp [V1.shortenUrl, hfind, hown, V1.shortenCreate, hgen, hf, createUrl, updateSlug]

/-- Witness for C4 at a concrete owned call: owner 7 shortens a URL already
held by an anonymous row. -/
theorem c4_owned_shorten_amended_witness :
    (7 : Nat) ≠ 0 ∧
      ((P2.shortenUrl ⟨⟨[⟨1, "000001", "https://a.com", none, 0⟩], 2⟩, []⟩
          "https://a.com" (some 7)).2.cache = [] ∧
        (∀ c' : Cache,
          (P2.shortenUrl ⟨⟨[⟨1, "000001", "https://a.com", none, 0⟩], 2⟩, c'⟩
              "https://a.com" (some 7)).1 =
            (P2.shortenUrl ⟨⟨[⟨1, "000001", "https://a.com", none, 0⟩], 2⟩, []⟩
              "https://a.com" (some 7)).1 ∧
          (P2.shortenUrl ⟨⟨[⟨1, "000001", "https://a.com", none, 0⟩], 2⟩, c'⟩
              "https://a.com" (some 7)).2.db =
            (P2.shortenUrl ⟨⟨[⟨1, "000001", "https://a.com", none, 0⟩], 2⟩, []⟩
              "https://a.com" (some 7)).2.db) ∧
        (∀ r : UrlRecord,
          findByOriginalUrl ⟨[⟨1, "000001", "https://a.com", none, 0⟩], 2⟩ "https://a.com" =
              some r →
            r.slug ≠ "" →
            (P2.shortenUrl ⟨⟨[⟨1, "000001", "https://a.com", none, 0⟩], 2⟩, []⟩
                "https://a.com" (some 7)).1 = r.slug ∧
            (P2.shortenUrl ⟨⟨[⟨1, "000001", "https://a.com", none, 0⟩], 2⟩, []⟩
                "https://a.com" (some 7)).2.db =
              ⟨[⟨1, "000001", "https://a.com", none, 0⟩], 2⟩) ∧
        (findByOriginalUrl ⟨[⟨1, "000001", "https://a.com", none, 0⟩], 2⟩ "https://a.com" =
            none →
          (P2.shortenUrl ⟨⟨[⟨1, "000001", "https://a.com", none, 0⟩], 2⟩, []⟩
              "https://a.com" (some 7)).2.db.rows.length =
            ([⟨1, "000001", "https://a.com", none, 0⟩] : List UrlRecord).length + 1) ∧
        (∀ (t : V1.St) (slugs : Nat → String) (sf : Option String),
          (V1.shortenUrl t "https://a.com" (some 7) slugs sf).2.cache = t.cache) ∧
        (∀ (t : V1.St) (c' : Cache) (slugs : Nat → String) (sf : Option String),
          (V1.shortenUrl ⟨t.db, c', t.clicks⟩ "https://a.com" (some 7) slugs sf).1 =
            (V1.shortenUrl t "https://a.com" (some 7) slugs sf).1 ∧
          (V1.shortenUrl ⟨t.db, c', t.clicks⟩ "https://a.com" (some 7) slugs sf).2.db =
            (V1.shortenUrl t "https://a.com" (some 7) slugs sf).2.db) ∧
        (∀ (t : V1.St) (slugs : Nat → String) (sf : Option String) (r : UrlRecord),
          findByOriginalUrl t.db "https://a.com" = some r →
          jsStrictEqNum r.userId (some 7) = true →
          V1.shortenUrl t "https://a.com" (some 7) slugs sf = (.ok r, t)) ∧
        (∀ (t : V1.St) (slugs : Nat → String) (sf : Option String) (slug : String),
          V1.generateUniqueSlug t.db slugs = .ok slug →
          (findByOriginalUrl t.db "https://a.com" = none ∨
            (∀ r : UrlRecord, findByOriginalUrl t.db "https://a.com" = some r →
              jsStrictEqNum r.userId (some 7) = false)) →
          (V1.shortenUrl t "https://a.com" (some 7) slugs sf).1 =
              .ok ⟨t.db.nextId, slug, "https://a.com", some 7, 0⟩ ∧
          (V1.shortenUrl t "https://a.com" (some 7) slugs sf).2.db.rows.length =
            t.db.rows.length + 1)) :=
  ⟨by decide,
    c4_owned_shorten_amended ⟨⟨[⟨1, "000001", "https://a.com", none, 0⟩], 2⟩, []⟩
      "https://a.com" 7 (by decide)⟩

/-- Counterexample to C4 as stated: the owned shorten call of owner 7 for a
URL that already has an (anonymous) row does not create a new store record —
the reuse check fires, the existing slug is returned and the store is left
with its single row. -/
theorem c4_owned_shorten_counterexample :
    (P2.shortenUrl ⟨⟨[⟨1, "000001", "https://a.com", none, 0⟩], 2⟩, []⟩
        "https://a.com" (some 7)).1 = "000001" ∧
      (P2.shortenUrl ⟨⟨[⟨1, "000001", "https://a.com", none, 0⟩], 2⟩, []⟩
          "https://a.com" (some 7)).2.db =
        ⟨[⟨1, "000001", "https://a.com", none, 0⟩], 2⟩ := by
  constructor <;> decide

/-! ## Lemmas about the V1 service's cache-failure behaviour -/

theorem V1resolveDbPhase_cache_free (db : Db) (c1 c2 : Cache) (k : List V1.ClickRow)
    (slug : String) (cd : Option V1.ClickInfo) (sf1 sf2 : Option String) :
    (V1.resolveDbPhase ⟨db, c1, k⟩ slug cd sf1).result =
        (V1.resolveDbPhase ⟨db, c2, k⟩ slug cd sf2).result ∧
      (V1.resolveDbPhase ⟨db, c1, k⟩ slug cd sf1).db =
        (V1.resolveDbPhase ⟨db, c2, k⟩ slug cd sf2).db ∧
      (V1.resolveDbPhase ⟨db, c1, k⟩ slug cd sf1).clicks =
        (V1.resolveDbPhase ⟨db, c2, k⟩ slug cd sf2).clicks := by
  rcases hfind : findBySlug db slug with _ | r
  · simp [V1.resolveDbPhase, hfind]
  · rcases htrack : findBySlug (incrementHitCount db slug) slug with _ | r2 <;>
      simp [V1.resolveDbPhase, hfind, V1.trackClick, htrack]

/-! ## Claims about cache-failure handling (C5) -/

/-- C5 (amended): in the url.service.ts variant, whose cache helpers
`getCachedUrl`, `cacheUrlMapping` and `removeFromCache` each catch
internally, every cache failure is absorbed and the call behaves on its
result, its store and its click log exactly as on a cache miss — for
resolve (a failing get behaves as an empty cache, a failing set changes
nothing observable), for delete and for shorten.  In the part_002
decode-then-id-lookup variant, however, a failure of the opening cache get
of `getOriginalUrl` propagates to the caller as the raw cache exception,
and a cache set failure after a successful store lookup is surfaced as the
not-found error. -/
theorem c5_cache_failure_amended :
    (∀ (s : V1.St) (slug : String) (cd : Option V1.ClickInfo) (e : String)
        (sf : Option String),
      (V1.getOriginalUrl s slug cd (some e) sf).result =
          (V1.getOriginalUrl ⟨s.db, [], s.clicks⟩ slug cd none none).result ∧
        (V1.getOriginalUrl s slug cd (some e) sf).db =
          (V1.getOriginalUrl ⟨s.db, [], s.clicks⟩ slug cd none none).db ∧
        (V1.getOriginalUrl s slug cd (some e) sf).clicks =
          (V1.getOriginalUrl ⟨s.db, [], s.clicks⟩ slug cd none none).clicks) ∧
    (∀ (s : V1.St) (slug : String) (cd : Option V1.ClickInfo) (gf : Option String)
        (e : String),
      (V1.getOriginalUrl s slug cd gf (some e)).result =
          (V1.getOriginalUrl s slug cd gf none).result ∧
        (V1.getOriginalUrl s slug cd gf (some e)).db =
          (V1.getOriginalUrl s slug cd gf none).db ∧
        (V1.getOriginalUrl s slug cd gf (some e)).clicks =
          (V1.getOriginalUrl s slug cd gf none).clicks) ∧
    (∀ (s : V1.St) (slug : String) (uid : Nat) (e : String),
      (V1.deleteUrl s slug uid (some e)).1 = (V1.deleteUrl s slug uid none).1 ∧
        (V1.deleteUrl s slug uid (some e)).2.db = (V1.deleteUrl s slug uid none).2.db) ∧
    (∀ (s : V1.St) (u : String) (userId : Option Nat) (slugs : Nat → String) (e : String),
      (V1.shortenUrl s u userId slugs (some e)).1 =
          (V1.shortenUrl s u userId slugs none).1 ∧
        (V1.shortenUrl s u userId slugs (some e)).2.db =
          (V1.shortenUrl s u userId slugs none).2.db) ∧
    (∀ (s : P2.St) (slug : String) (e : String) (sf : Option String),
      (P2.getOriginalUrl s slug (some e) sf).result = .error (.cacheErr e)) ∧
    (∀ (s : P2.St) (slug : String) (r : UrlRecord) (e : String),
      cacheGet s.cache ("slug:" ++ slug) = none →
      isSafeInteger (toBase10 slug) ∧ 1 ≤ toBase10 slug →
      findById s.db (toBase10 slug) = some r →
      (P2.getOriginalUrl s slug none (some e)).result = .error (.error "URL not found")) := by
  refine ⟨?_, ?_, ?_, ?_, ?_, ?_⟩
  · intro s slug cd e sf
    obtain ⟨db, cache, k⟩ := s
    have h2 : V1.getOriginalUrl ⟨db, [], k⟩ slug cd none none =
        V1.resolveDbPhase ⟨db, [], k⟩ slug cd none := by
      simp [V1.getOriginalUrl, V1.getCachedUrl, cacheGet]
    rw [h2]
    show (V1.resolveDbPhase ⟨db, cache, k⟩ slug cd sf).result = _ ∧ _
    exact V1resolveDbPhase_cache_free db cache [] k slug cd sf none
  · intro s slug cd gf e
    obtain ⟨db, cache, k⟩ := s
    rcases hget : V1.getCachedUrl ⟨db, cache, k⟩ slug gf with _ | v
    · simp only [V1.getOriginalUrl, hget]
      exact V1resolveDbPhase_cache_free db cache cache k slug cd (some e) none
    · by_cases hv : v = ""
      · simp only [V1.getOriginalUrl, hget, hv, if_pos rfl]
        exact V1resolveDbPhase_cache_free db cache cache k slug cd (some e) none
      · simp [V1.getOriginalUrl, hget, hv]
  · intro s slug uid e
    rcases hfind : findBySlug s.db slug with _ | r
    · simp [V1.deleteUrl, hfind]
    · by_cases hown : jsStrictEqNum r.userId (some uid) = true <;>
        simp [V1.deleteUrl, hfind, hown]
  · intro s u userId slugs e
    rcases hfind : findByOriginalUrl s.db u with _ | r
    · rcases hgen : V1.generateUniqueSlug s.db slugs with e2 | slug <;>
        simp [V1.shortenUrl, hfind, V1.shortenCreate, hgen, V1.cacheUrlMapping]
    · by_cases hown : jsStrictEqNum r.userId userId = true
      · simp [V1.shortenUrl, hfind, hown]
      · rcases hgen : V1.generateUniqueSlug s.db slugs with e2 | slug <;>
          simp [V1.shortenUrl, hfind, hown, V1.shortenCreate, hgen, V1.cacheUrlMapping]
  · intro s slug e sf
    simp [P2.getOriginalUrl]
  · intro s slug r e hmiss hid hfind
    simp [P2.getOriginalUrl, hmiss, P2.resolveDbPhase, hid, hfind]

/-- Counterexample to C5 as stated: in the part_002 variant, with a store
holding the slug `"000001"`, a failing cache get makes the resolve throw
the raw cache exception, while the same resolve with an intact empty cache
returns the URL — the cache failure is not treated as a miss and is
surfaced to the caller. -/
theorem c5_cache_failure_counterexample :
    (P2.getOriginalUrl ⟨⟨[⟨1, "000001", "https://e.com/x", none, 0⟩], 2⟩, []⟩
        "000001" (some "ECONNREFUSED") none).result =
      .error (.cacheErr "ECONNREFUSED") ∧
    (P2.getOriginalUrl ⟨⟨[⟨1, "000001", "https://e.com/x", none, 0⟩], 2⟩, []⟩
        "000001" none none).result = .ok "https://e.com/x" := by
  constructor <;> decide

theorem V1trackClick_frame (s : V1.St) (slug : String) (cd : Option V1.ClickInfo) :
    (V1.trackClick s slug cd).1.db = s.db ∧
      (V1.trackClick s slug cd).1.cache = s.cache ∧
      (V1.trackClick s slug cd).2 = 1 := by
  rcases hfind : findBySlug s.db slug with _ | r <;> simp [V1.trackClick, hfind]

/-! ## Claims about the resolve cache short-circuit (C6) -/

/-- C6 (amended): when the cache get for a slug returns a truthy value and
no click metadata is supplied, the url.service.ts resolve returns the
cached URL, leaves the store unchanged (in particular no hit-count
increment) — but its unconditional `trackClick` still issues exactly one
store lookup; in the part_002 decode variant a cache hit returns the cached
URL with no store operation at all (zero reads, store and cache untouched). -/
theorem c6_cache_hit_amended (s : V1.St) (slug v : String)
    (hhit : cacheGet s.cache ("short:" ++ slug) = some v) (hv : v ≠ "") :
    (V1.getOriginalUrl s slug none none none).result = .ok v ∧
      (V1.getOriginalUrl s slug none none none).db = s.db ∧
      (V1.getOriginalUrl s slug none none none).dbReads = 1 ∧
      (∀ (s2 : P2.St) (slug2 v2 : String),
        cacheGet s2.cache ("slug:" ++ slug2) = some v2 → v2 ≠ "" →
        P2.getOriginalUrl s2 slug2 none none = ⟨.ok v2, s2.db, s2.cache, 0⟩) := by
  have hget : V1.getCachedUrl s slug none = some v := hhit
  have htr := V1trackClick_frame s slug none
  refine ⟨?_, ?_, ?_, ?_⟩
  · simp [V1.getOriginalUrl, hget, hv]
  · simp [V1.getOriginalUrl, hget, hv, htr.1]
  · simp [V1.getOriginalUrl, hget, hv, htr.2.2]
  · intro s2 slug2 v2 hhit2 hv2
    simp [P2.getOriginalUrl, hhit2, hv2]

/-- Witness for C6 at a concrete cache-hit state. -/
theorem c6_cache_hit_amended_witness :
    cacheGet [("short:abc123", "https://cached.com")] ("short:" ++ "abc123") =
        some "https://cached.com" ∧
      ("https://cached.com" : String) ≠ "" ∧
      ((V1.getOriginalUrl ⟨⟨[], 1⟩, [("short:abc123", "https://cached.com")], []⟩
            "abc123" none none none).result = .ok "https://cached.com" ∧
        (V1.getOriginalUrl ⟨⟨[], 1⟩, [("short:abc123", "https://cached.com")], []⟩
            "abc123" none none none).db = ⟨[], 1⟩ ∧
        (V1.getOriginalUrl ⟨⟨[], 1⟩, [("short:abc123", "https://cached.com")], []⟩
            "abc123" none none none).dbReads = 1 ∧
        (∀ (s2 : P2.St) (slug2 v2 : String),
          cacheGet s2.cache ("slug:" ++ slug2) = some v2 → v2 ≠ "" →
          P2.getOriginalUrl s2 slug2 none none = ⟨.ok v2, s2.db, s2.cache, 0⟩)) :=
  ⟨by decide, by decide,
    c6_cache_hit_amended ⟨⟨[], 1⟩, [("short:abc123", "https://cached.com")], []⟩
      "abc123" "https://cached.com" (by decide) (by decide)⟩

/-- Counterexample to C6 as stated: on a cache hit with no click metadata,
the url.service.ts resolve returns the cached URL but still performs a
store lookup — the click tracker's `findBySlug` — so the store read count
is 1, not 0. -/
theorem c6_cache_hit_counterexample :
    (V1.getOriginalUrl ⟨⟨[], 1⟩, [("short:xyz999", "https://cached.org")], []⟩
        "xyz999" none none none).result = .ok "https://cached.org" ∧
      (V1.getOriginalUrl ⟨⟨[], 1⟩, [("short:xyz999", "https://cached.org")], []⟩
          "xyz999" none none none).dbReads = 1 := by
  constructor <;> decide

/-! ## Claims about deletion (C7) -/

/-- C7 (amended): a successful delete in url.service.ts removes the store
row and evicts only the `short:<slug>` cache key; the `long:<originalUrl>`
key is never evicted (and the part_002 delete evicts no cache key at all).
Cache eviction of an absent key is a no-op, not an error. -/
theorem c7_delete_amended (s : V1.St) (slug : String) (uid : Nat) (r : UrlRecord)
    (hfind : findBySlug s.db slug = some r) (hown : r.userId = some uid) :
    (V1.deleteUrl s slug uid none).1 = .ok () ∧
      (V1.deleteUrl s slug uid none).2.db = deleteRow s.db r.id ∧
      (V1.deleteUrl s slug uid none).2.cache = cacheDel s.cache ("short:" ++ slug) ∧
      (∀ (c : Cache) (k : String), (∀ p ∈ c, p.1 ≠ k) → cacheDel c k = c) ∧
      (∀ (s2 : P2.St) (slug2 : String) (uid2 : Nat),
        (P2.deleteUrl s2 slug2 uid2).2.cache = s2.cache) := by
  have hown2 : jsStrictEqNum r.userId (some uid) = true := by
    rw [hown]; simp [jsStrictEqNum]
  refine ⟨?_, ?_, ?_, ?_, ?_⟩
  · simp [V1.deleteUrl, hfind, hown2]
  · simp [V1.deleteUrl, hfind, hown2]
  · simp [V1.deleteUrl, hfind, hown2, V1.removeFromCache]
  · intro c k hc
    rw [cacheDel, List.filter_eq_self]
    intro p hp
    simpa using hc p hp
  · intro s2 slug2 uid2
    rcases hfind2 : findBySlug s2.db slug2 with _ | r2
    · simp [P2.deleteUrl, hfind2]
    · by_cases hown3 : jsStrictEqNum r2.userId (some uid2) = true <;>
        simp [P2.deleteUrl, hfind2, hown3]

/-- Witness for C7 at a concrete owned record whose slug and URL are both
cached. -/
theorem c7_delete_amended_witness :
    findBySlug ⟨[⟨1, "000001", "https://a.com", some 7, 0⟩], 2⟩ "000001" =
        some ⟨1, "000001", "https://a.com", some 7, 0⟩ ∧
      (⟨1, "000001", "https://a.com", some 7, 0⟩ : UrlRecord).userId = some 7 ∧
      ((V1.deleteUrl ⟨⟨[⟨1, "000001", "https://a.com", some 7, 0⟩], 2⟩,
            [("short:000001", "https://a.com"), ("long:https://a.com", "000001")], []⟩
          "000001" 7 none).1 = .ok () ∧
        (V1.deleteUrl ⟨⟨[⟨1, "000001", "https://a.com", some 7, 0⟩], 2⟩,
            [("short:000001", "https://a.com"), ("long:https://a.com", "000001")], []⟩
          "000001" 7 none).2.db =
          deleteRow ⟨[⟨1, "000001", "https://a.com", some 7, 0⟩], 2⟩ 1 ∧
        (V1.deleteUrl ⟨⟨[⟨1, "000001", "https://a.com", some 7, 0⟩], 2⟩,
            [("short:000001", "https://a.com"), ("long:https://a.com", "000001")], []⟩
          "000001" 7 none).2.cache =
          cacheDel [("short:000001", "https://a.com"), ("long:https://a.com", "000001")]
            ("short:" ++ "000001") ∧
        (∀ (c : Cache) (k : String), (∀ p ∈ c, p.1 ≠ k) → cacheDel c k = c) ∧
        (∀ (s2 : P2.St) (slug2 : String) (uid2 : Nat),
          (P2.deleteUrl s2 slug2 uid2).2.cache = s2.cache)) :=
  ⟨by decide, by decide,
    c7_delete_amended ⟨⟨[⟨1, "000001", "https://a.com", some 7, 0⟩], 2⟩,
        [("short:000001", "https://a.com"), ("long:https://a.com", "000001")], []⟩
      "000001" 7 ⟨1, "000001", "https://a.com", some 7, 0⟩ (by decide) (by decide)⟩

/-- Counterexample to C7 as stated: a successful delete of the slug
`"000001"` leaves the `long:https://a.com` cache key in place — the second
namespace is not evicted. -/
theorem c7_delete_counterexample :
    (V1.deleteUrl ⟨⟨[⟨1, "000001", "https://a.com", some 7, 0⟩], 2⟩,
        [("short:000001", "https://a.com"), ("long:https://a.com", "000001")], []⟩
      "000001" 7 none).1 = .ok () ∧
      (V1.deleteUrl ⟨⟨[⟨1, "000001", "https://a.com", some 7, 0⟩], 2⟩,
          [("short:000001", "https://a.com"), ("long:https://a.com", "000001")], []⟩
        "000001" 7 none).2.db.rows = [] ∧
      cacheGet
          (V1.deleteUrl ⟨⟨[⟨1, "000001", "https://a.com", some 7, 0⟩], 2⟩,
              [("short:000001", "https://a.com"), ("long:https://a.com", "000001")], []⟩
            "000001" 7 none).2.cache
          ("long:" ++ "https://a.com") = some "000001" := by
  refine ⟨?_, ?_, ?_⟩ <;> decide

/-! ## Code-bug evaluations (C2, C8) -/

/-- C2 (code evaluated at the failing input): two successive anonymous
shorten calls of url.service.ts for the same URL, starting from an empty
store and cache, with the random draws `"aaaaaa", "bbbbbb", …`.  The second
call finds the existing row but `existingUrl.userId === userId` compares
the stored `NULL` against the `undefined` parameter, which is false, so it
creates a second row and returns a different slug — anonymous shortening is
not idempotent in this variant, contradicting the spec and the service's
own test. -/
theorem c2_anonymous_shorten_not_idempotent :
    (V1.shortenUrl ⟨⟨[], 1⟩, [], []⟩ "https://example.com/a" none
        (fun i => if i = 0 then "aaaaaa" else "bbbbbb") none).1 =
      .ok ⟨1, "aaaaaa", "https://example.com/a", none, 0⟩ ∧
      (V1.shortenUrl
          (V1.shortenUrl ⟨⟨[], 1⟩, [], []⟩ "https://example.com/a" none
            (fun i => if i = 0 then "aaaaaa" else "bbbbbb") none).2
          "https://example.com/a" none
          (fun i => if i = 0 then "aaaaaa" else "bbbbbb") none).1 =
        .ok ⟨2, "bbbbbb", "https://example.com/a", none, 0⟩ ∧
      (V1.shortenUrl
          (V1.shortenUrl ⟨⟨[], 1⟩, [], []⟩ "https://example.com/a" none
            (fun i => if i = 0 then "aaaaaa" else "bbbbbb") none).2
          "https://example.com/a" none
          (fun i => if i = 0 then "aaaaaa" else "bbbbbb") none).2.db.rows.length = 2 := by
  refine ⟨?_, ?_, ?_⟩ <;> decide

/-- C8 (code evaluated at the failing input): the malformed slug `"10000!"`
decodes — through the silent `-1` index — to the plausible positive id
`62^5 - 1 = 916132831`, so the part_002 resolve does consult the store
(one repository read) instead of failing without a store round-trip; and
when a row with that id exists, the malformed slug resolves to that row's
URL. -/
theorem c8_malformed_slug_store_roundtrip :
    (P2.getOriginalUrl ⟨⟨[], 1⟩, []⟩ "10000!" none none).result =
      .error (.error "URL not found") ∧
      (P2.getOriginalUrl ⟨⟨[], 1⟩, []⟩ "10000!" none none).dbReads = 1 ∧
      (P2.getOriginalUrl
          ⟨⟨[⟨916132831, "victim", "https://victim.example", none, 0⟩], 916132832⟩, []⟩
          "10000!" none none).result = .ok "https://victim.example" := by
  refine ⟨?_, ?_, ?_⟩ <;> decide

/-! ## The part_002 shorten is idempotent for anonymous URLs -/

theorem toBase62_ne_empty (n : Nat) : toBase62 n ≠ "" := by
  intro he
  have hlen : (toBase62 n).length = 0 := by rw [he]; rfl
  rw [toBase62_length_eq] at hlen
  omega

theorem cacheGet_cacheSet (c : Cache) (k v : String) :
    cacheGet (cacheSet c k v) k = some v := by
  simp [cacheGet, cacheSet]

/-- Two successive anonymous part_002 shorten calls for a URL with no prior
row and no prior cache entry return the same slug (the second is served by
the `long:` cache) and leave exactly one store row for that URL.  This is
the idempotence the spec demands; the url.service.ts variant violates it
(see the evaluation of the anonymous double-shorten). -/
theorem P2shorten_anonymous_idempotent_fresh (db : Db) (cache : Cache) (u : String)
    (hc : cacheGet cache ("long:" ++ u) = none)
    (hdb : findByOriginalUrl db u = none) :
    (P2.shortenUrl (P2.shortenUrl ⟨db, cache⟩ u none).2 u none).1 =
        (P2.shortenUrl ⟨db, cache⟩ u none).1 ∧
      (P2.shortenUrl (P2.shortenUrl ⟨db, cache⟩ u none).2 u none).2.db =
        (P2.shortenUrl ⟨db, cache⟩ u none).2.db ∧
      ((P2.shortenUrl (P2.shortenUrl ⟨db, cache⟩ u none).2 u none).2.db.rows.countP
          (fun r => r.originalUrl == u)) = 1 := by
  have h1 : P2.shortenUrl ⟨db, cache⟩ u none =
      (toBase62 db.nextId,
        ⟨updateSlug (createUrl db u none).2 db.nextId (toBase62 db.nextId),
          cacheSet cache ("long:" ++ u) (toBase62 db.nextId)⟩) := by
    simp [P2.shortenUrl, falsyUserId, hc, P2.shortenDbPhase, hdb, P2.shortenCreate, createUrl]
  have hget := cacheGet_cacheSet cache ("long:" ++ u) (toBase62 db.nextId)
  have hne := toBase62_ne_empty db.nextId
  have h2 : P2.shortenUrl (P2.shortenUrl ⟨db, cache⟩ u none).2 u none =
      (toBase62 db.nextId, (P2.shortenUrl ⟨db, cache⟩ u none).2) := by
    rw [h1]
    simp [P2.shortenUrl, falsyUserId, hget, hne]
  rw [h2, h1]
  refine ⟨rfl, rfl, ?_⟩
  have hall : ∀ r ∈ db.rows, (r.originalUrl == u) = false := by
    intro r hr
    have := List.find?_eq_none.mp hdb r hr
    simpa using this
  show ((db.rows ++ ([⟨db.nextId, "", u, none, 0⟩] : List UrlRecord)).map
      (fun r : UrlRecord =>
        if r.id == db.nextId then { r with slug := toBase62 db.nextId } else r)).countP
      (fun r => r.originalUrl == u) = 1
  rw [List.map_append, List.countP_append]
  have hleft : (db.rows.map
      (fun r : UrlRecord =>
        if r.id == db.nextId then { r with slug := toBase62 db.nextId } else r)).countP
      (fun r => r.originalUrl == u) = 0 := by
    rw [List.countP_eq_zero]
    intro x hx
    rw [List.mem_map] at hx
    obtain ⟨r, hr, hfr⟩ := hx
    subst hfr
    by_cases hid : (r.id == db.nextId) = true <;> simp [hid, hall r hr]
  rw [hleft]
  simp
